import Mathlib

/-!
Verification of `tools_webrtc/apply_clang_tidy.py`.

The script is a linear pipeline: parse/validate a working-directory
argument, conditionally rebuild the clang tools, regenerate
`compile_commands.json`, and run the clang-tidy runner.  We embed it
shallowly: the ambient filesystem and the exit statuses of spawned
subprocesses form an `Env`; each function of the script becomes a pure
function from `Env` to the list of observable effects it performs (in
order) together with the exception it raises, if any.

Paths are modelled as their POSIX string representations.
`pathlib.Path` construction performs a purely lexical normalization
(dropping empty and "." components, collapsing separators, keeping a
leading "/" or exactly-double "//"); `normPath` embeds that.
`st_mtime` and `time.time()` are real-valued; we model them in `ℚ`,
where the division by 86400 and the comparison with 30 agree with the
real-number semantics.
-/

/-- Observable effect of one step of the script, in program order:
a line printed, a file opened in truncating write mode (Python mode
`"w+"`), or a subprocess spawned with the given argv. -/
inductive Event where
  | printMsg (msg : String)
  | openTrunc (path : String)
  | spawn (cmd : List String)
deriving DecidableEq, Repr

/-- Exceptions the script can raise: `ValueError` from `_valid_dir`
(turned into an argparse failure, hence a nonzero exit), or
`subprocess.CalledProcessError` from a `check=True` run. -/
inductive ScriptErr where
  | valueError (msg : String)
  | calledProcessError (cmd : List String) (returncode : Nat)
deriving DecidableEq, Repr

/-- The ambient world the script runs in: which path strings name
directories (`Path.is_dir`), which name existing files (`Path.exists`),
each file's `st_mtime`, the current `time.time()`, and the exit status
each spawned command would return. -/
structure Env where
  isDir : String → Bool
  fileExists : String → Bool
  mtime : String → ℚ
  now : ℚ
  exitCode : List String → Nat

/-- Split a character list at `/` separators (the semantics of
`"…".split("/")`), keeping empty pieces. -/
def splitSlash : List Char → List Char → List String
  | [], acc => [String.mk acc.reverse]
  | c :: rest, acc =>
    if c = '/' then String.mk acc.reverse :: splitSlash rest []
    else splitSlash rest (c :: acc)

/-- The root prefix `pathlib.PurePosixPath` keeps: `//` for exactly two
leading slashes, `/` for one or for three and more, nothing otherwise. -/
def rootOf : List Char → String
  | '/' :: '/' :: '/' :: _ => "/"
  | '/' :: '/' :: _ => "//"
  | '/' :: _ => "/"
  | _ => ""

/-- String form of `pathlib.PurePosixPath(s)`: split on `/`, drop empty
and `"."` components, keep the root prefix, and render the empty
relative path as `"."`. -/
def normPath (s : String) : String :=
  let comps := (splitSlash s.data []).filter (fun c => c ≠ "" && c ≠ ".")
  let root := rootOf s.data
  if root = "" && comps = [] then "."
  else root ++ String.intercalate "/" comps

/-- String form of `pathlib.Path(a, b)` where `a` is an
already-normalized path string and `b` a clean relative path (so `a`
ends in `/` only when it is the root). -/
def joinPath (a b : String) : String :=
  if a = "." then b
  else if a = "/" || a = "//" then a ++ b
  else a ++ "/" ++ b

/-- Embeds `_DEFAULT_WORKDIR = pathlib.Path("out/Default")` (as its string). -/
def DEFAULT_WORKDIR : String := normPath "out/Default"

/-- Embeds `_TIDY_BUILD`: the build script path, relative to the src dir. -/
def TIDY_BUILD : String := "tools/clang/scripts/build_clang_tools_extra.py"

/-- Embeds `_LLVM`, relative to the work dir. -/
def LLVM : String := "tools/clang/third_party/llvm/"

/-- Embeds `_TIDY_RUNNER = _LLVM + "clang-tools-extra/clang-tidy/tool/run-clang-tidy.py"`. -/
def TIDY_RUNNER : String := LLVM ++ "clang-tools-extra/clang-tidy/tool/run-clang-tidy.py"

/-- Embeds `_TIDY_BINARY = _LLVM + "build/bin/clang-tidy"`. -/
def TIDY_BINARY : String := LLVM ++ "build/bin/clang-tidy"

/-- Embeds `_REPLACEMENTS_BINARY = _LLVM + "build/bin/clang-apply-replacements"`. -/
def REPLACEMENTS_BINARY : String := LLVM ++ "build/bin/clang-apply-replacements"

/-- Embeds `_valid_dir(path)`: wrap the string in a `pathlib.Path`, raise
`ValueError` unless it is an existing directory, else return it. -/
def valid_dir (env : Env) (path : String) : Except ScriptErr String :=
  let pathlib_handle := normPath path
  if env.isDir pathlib_handle then Except.ok pathlib_handle
  else Except.error (ScriptErr.valueError
    ("Dir path " ++ pathlib_handle ++ " does not exist!"))

/-- The argv of the build subprocess in `_build_clang_tools`. -/
def build_clang_tools_cmd (work_dir : String) : List String :=
  [TIDY_BUILD, "--fetch", work_dir, "clang-tidy", "clang-apply-replacements"]

/-- Result of `subprocess.run(cmd, check=True)`: raises
`CalledProcessError` exactly when the exit status is nonzero. -/
def runChecked (env : Env) (cmd : List String) : Option ScriptErr :=
  if env.exitCode cmd = 0 then none
  else some (ScriptErr.calledProcessError cmd (env.exitCode cmd))

/-- Embeds `_build_clang_tools(work_dir)`: if the runner script, the clang-tidy
binary and the clang-apply-replacements binary all exist and the
clang-tidy binary is less than 30 days old, return without doing
anything; otherwise print and spawn the build subprocess with
`check=True`. -/
def build_clang_tools (env : Env) (work_dir : String) :
    List Event × Option ScriptErr :=
  let cmd := build_clang_tools_cmd work_dir
  if env.fileExists (joinPath work_dir TIDY_RUNNER)
      && env.fileExists (joinPath work_dir TIDY_BINARY)
      && env.fileExists (joinPath work_dir REPLACEMENTS_BINARY) then
    let tidy_binary_path := joinPath work_dir TIDY_BINARY
    let age_in_seconds : ℚ := env.now - env.mtime tidy_binary_path
    let age_in_days : ℚ := age_in_seconds / (24 * 60 * 60)
    if age_in_days < 30 then
      ([], none)
    else
      ([Event.printMsg ("Binary is " ++ toString age_in_days.floor
          ++ " days old - recompiling"),
        Event.printMsg "Fetching and building clang-tidy",
        Event.spawn cmd],
       runChecked env cmd)
  else
    ([Event.printMsg "Fetching and building clang-tidy", Event.spawn cmd],
     runChecked env cmd)

/-- The argv of the compile-database generator subprocess. -/
def generate_compdb_cmd (work_dir : String) : List String :=
  ["tools/clang/scripts/generate_compdb.py", "-p", work_dir]

/-- Embeds `_generate_compile_commands(work_dir)`: print, open
`compile_commands.json` inside the work dir in truncating `"w+"` mode,
then spawn the generator with its stdout redirected there, with
`check=True`.  The open happens before the spawn, since Python
evaluates the `stdout=` argument before `subprocess.run` executes. -/
def generate_compile_commands (env : Env) (work_dir : String) :
    List Event × Option ScriptErr :=
  let compile_commands_path := joinPath work_dir "compile_commands.json"
  let cmd := generate_compdb_cmd work_dir
  ([Event.printMsg "Generating compile commands file...",
    Event.openTrunc compile_commands_path,
    Event.spawn cmd],
   runChecked env cmd)

/-- The argv of the clang-tidy runner subprocess. -/
def clang_tidy_cmd (work_dir : String) : List String :=
  [joinPath work_dir TIDY_RUNNER, "-p", work_dir, "-allow-no-checks",
   "-clang-tidy-binary", joinPath work_dir TIDY_BINARY,
   "-clang-apply-replacements-binary", joinPath work_dir REPLACEMENTS_BINARY,
   "-fix"]

/-- Embeds `_run_clang_tidy(work_dir)`: spawn the runner with `check=False`,
so a nonzero exit status never raises. -/
def run_clang_tidy (_env : Env) (work_dir : String) :
    List Event × Option ScriptErr :=
  ([Event.spawn (clang_tidy_cmd work_dir)], none)

/-- Embeds `_parse_args()`: the `--work-dir` argument has `type=_valid_dir` and
`default=str(_DEFAULT_WORKDIR)`; argparse applies the type converter to
the supplied value, or to the default because the default is a string.
A `ValueError` from the converter becomes an argparse error (nonzero
process exit). -/
def parse_args (env : Env) (work_dir_arg : Option String) :
    Except ScriptErr String :=
  valid_dir env (work_dir_arg.getD DEFAULT_WORKDIR)

/-- Embeds `main()`: parse the arguments, then run the three steps in order,
stopping at the first raised exception.  The returned trace is the list
of effects performed before termination. -/
def mainScript (env : Env) (work_dir_arg : Option String) :
    List Event × Option ScriptErr :=
  match parse_args env work_dir_arg with
  | Except.error e => ([], some e)
  | Except.ok work_dir =>
    let r1 := build_clang_tools env work_dir
    match r1.2 with
    | some e => (r1.1, some e)
    | none =>
      let r2 := generate_compile_commands env work_dir
      match r2.2 with
      | some e => (r1.1 ++ r2.1, some e)
      | none =>
        let r3 := run_clang_tidy env work_dir
        (r1.1 ++ r2.1 ++ r3.1, r3.2)

/-- The subsequence of subprocess argvs spawned along a trace. -/
def spawnsOf (trace : List Event) : List (List String) :=
  trace.filterMap (fun e =>
    match e with
    | Event.spawn c => some c
    | _ => none)

/-! ### Shape lemmas -/

/-- Lemma: `_build_clang_tools` either returns at once with no effect, or
prints (once or twice) and spawns the build command with `check=True`. -/
lemma build_clang_tools_shape (env : Env) (w : String) :
    build_clang_tools env w = ([], none)
    ∨ build_clang_tools env w =
        ([Event.printMsg "Fetching and building clang-tidy",
          Event.spawn (build_clang_tools_cmd w)],
         runChecked env (build_clang_tools_cmd w))
    ∨ ∃ m, build_clang_tools env w =
        ([Event.printMsg m,
          Event.printMsg "Fetching and building clang-tidy",
          Event.spawn (build_clang_tools_cmd w)],
         runChecked env (build_clang_tools_cmd w)) := by
  simp only [build_clang_tools]
  split
  · split
    · exact Or.inl rfl
    · exact Or.inr (Or.inr ⟨_, rfl⟩)
  · exact Or.inr (Or.inl rfl)

/-- Unfolding of `main` once argument parsing has succeeded. -/
lemma mainScript_eq_ok (env : Env) (arg : Option String) (w : String)
    (hp : parse_args env arg = Except.ok w) :
    mainScript env arg =
      match (build_clang_tools env w).2 with
      | some e => ((build_clang_tools env w).1, some e)
      | none =>
        match (generate_compile_commands env w).2 with
        | some e =>
          ((build_clang_tools env w).1 ++ (generate_compile_commands env w).1,
           some e)
        | none =>
          ((build_clang_tools env w).1 ++ (generate_compile_commands env w).1
             ++ (run_clang_tidy env w).1,
           (run_clang_tidy env w).2) := by
  unfold mainScript
  rw [hp]

/-- Unfolding of `main` when argument parsing fails. -/
lemma mainScript_eq_error (env : Env) (arg : Option String) (e : ScriptErr)
    (hp : parse_args env arg = Except.error e) :
    mainScript env arg = ([], some e) := by
  unfold mainScript
  rw [hp]

/-! ### Claims about the rebuild step -/

/-- C2: when the tidy runner script, the clang-tidy binary and the
clang-apply-replacements binary all exist under the working directory
and the clang-tidy binary's age (now minus its mtime, in days) is less
than 30, `_build_clang_tools` returns immediately: it performs no
effect at all, in particular it spawns no build subprocess. -/
theorem C2_fresh_binaries_skip_build (env : Env) (w : String)
    (h1 : env.fileExists (joinPath w TIDY_RUNNER) = true)
    (h2 : env.fileExists (joinPath w TIDY_BINARY) = true)
    (h3 : env.fileExists (joinPath w REPLACEMENTS_BINARY) = true)
    (hage : (env.now - env.mtime (joinPath w TIDY_BINARY)) / (24 * 60 * 60)
      < 30) :
    build_clang_tools env w = ([], none) := by
  simp [build_clang_tools, h1, h2, h3, hage]

/-- C3: when all three files exist but the clang-tidy binary's age in
days (seconds divided by 86400) is at least 30, `_build_clang_tools`
spawns the external build subprocess. -/
theorem C3_stale_binary_rebuilds (env : Env) (w : String)
    (h1 : env.fileExists (joinPath w TIDY_RUNNER) = true)
    (h2 : env.fileExists (joinPath w TIDY_BINARY) = true)
    (h3 : env.fileExists (joinPath w REPLACEMENTS_BINARY) = true)
    (hage : 30 ≤ (env.now - env.mtime (joinPath w TIDY_BINARY))
      / (24 * 60 * 60)) :
    Event.spawn (build_clang_tools_cmd w) ∈ (build_clang_tools env w).1 := by
  simp [build_clang_tools, h1, h2, h3, not_lt.mpr hage]

/-- C4: when at least one of the three expected files is missing,
`_build_clang_tools` spawns exactly one subprocess — the build command —
and that command's argv requests both the `clang-tidy` and the
`clang-apply-replacements` targets. -/
theorem C4_missing_file_builds_both_targets (env : Env) (w : String)
    (h : env.fileExists (joinPath w TIDY_RUNNER) = false
      ∨ env.fileExists (joinPath w TIDY_BINARY) = false
      ∨ env.fileExists (joinPath w REPLACEMENTS_BINARY) = false) :
    spawnsOf (build_clang_tools env w).1 = [build_clang_tools_cmd w]
    ∧ "clang-tidy" ∈ build_clang_tools_cmd w
    ∧ "clang-apply-replacements" ∈ build_clang_tools_cmd w := by
  refine ⟨?_, by simp [build_clang_tools_cmd], by simp [build_clang_tools_cmd]⟩
  rcases h with h | h | h <;> simp [build_clang_tools, h, spawnsOf]

/-! ### Claims about the whole pipeline -/

/-- C1: exit-status asymmetry.  Given a successfully parsed working
directory: (1) if the build step and the database-generation step both
finish without raising, the script as a whole raises nothing — for any
exit status of the final clang-tidy runner, since `env.exitCode
(clang_tidy_cmd w)` is unconstrained; (2) a nonzero exit status of a
spawned build subprocess raises `CalledProcessError` and neither the
database generator nor the runner is spawned, nor is the database file
opened; (3) a nonzero exit status of the database generator raises
`CalledProcessError` and the runner is never spawned. -/
theorem C1_exit_status_asymmetry (env : Env) (arg : Option String)
    (w : String) (hp : parse_args env arg = Except.ok w) :
    ((build_clang_tools env w).2 = none →
      env.exitCode (generate_compdb_cmd w) = 0 →
      (mainScript env arg).2 = none
      ∧ Event.spawn (clang_tidy_cmd w) ∈ (mainScript env arg).1)
    ∧ (env.exitCode (build_clang_tools_cmd w) ≠ 0 →
      Event.spawn (build_clang_tools_cmd w) ∈ (build_clang_tools env w).1 →
      (mainScript env arg).2 =
        some (ScriptErr.calledProcessError (build_clang_tools_cmd w)
          (env.exitCode (build_clang_tools_cmd w)))
      ∧ Event.spawn (generate_compdb_cmd w) ∉ (mainScript env arg).1
      ∧ Event.openTrunc (joinPath w "compile_commands.json")
          ∉ (mainScript env arg).1
      ∧ Event.spawn (clang_tidy_cmd w) ∉ (mainScript env arg).1)
    ∧ ((build_clang_tools env w).2 = none →
      env.exitCode (generate_compdb_cmd w) ≠ 0 →
      (mainScript env arg).2 =
        some (ScriptErr.calledProcessError (generate_compdb_cmd w)
          (env.exitCode (generate_compdb_cmd w)))
      ∧ Event.spawn (clang_tidy_cmd w) ∉ (mainScript env arg).1) := by
  refine ⟨?_, ?_, ?_⟩
  · intro hb hg
    have hgen : (generate_compile_commands env w).2 = none := by
      simp [generate_compile_commands, runChecked, hg]
    rw [mainScript_eq_ok env arg w hp]
    simp only [hb, hgen]
    simp [run_clang_tidy]
  · intro hx hspawn
    rcases build_clang_tools_shape env w with heq | heq | ⟨m, heq⟩
    · rw [heq] at hspawn
      simp at hspawn
    · have hb : (build_clang_tools env w).2 =
          some (ScriptErr.calledProcessError (build_clang_tools_cmd w)
            (env.exitCode (build_clang_tools_cmd w))) := by
        rw [heq]
        simp [runChecked, hx]
      rw [mainScript_eq_ok env arg w hp]
      simp only [hb]
      refine ⟨by trivial, ?_, ?_, ?_⟩ <;>
        · rw [heq]
          simp [build_clang_tools_cmd, generate_compdb_cmd, clang_tidy_cmd]
    · have hb : (build_clang_tools env w).2 =
          some (ScriptErr.calledProcessError (build_clang_tools_cmd w)
            (env.exitCode (build_clang_tools_cmd w))) := by
        rw [heq]
        simp [runChecked, hx]
      rw [mainScript_eq_ok env arg w hp]
      simp only [hb]
      refine ⟨by trivial, ?_, ?_, ?_⟩ <;>
        · rw [heq]
          simp [build_clang_tools_cmd, generate_compdb_cmd, clang_tidy_cmd]
  · intro hb hx
    have hgen : (generate_compile_commands env w).2 =
        some (ScriptErr.calledProcessError (generate_compdb_cmd w)
          (env.exitCode (generate_compdb_cmd w))) := by
      simp [generate_compile_commands, runChecked, hx]
    rw [mainScript_eq_ok env arg w hp]
    simp only [hb, hgen]
    refine ⟨by trivial, ?_⟩
    rcases build_clang_tools_shape env w with heq | heq | ⟨m, heq⟩ <;>
      · rw [heq]
        simp [generate_compile_commands, build_clang_tools_cmd,
          generate_compdb_cmd, clang_tidy_cmd]

/-- C5: a path argument whose (lexically normalized) string does not
name an existing directory makes the run fail with a `ValueError`
before any effect is performed — the trace is empty, so in particular
no subprocess is spawned; a path argument that does name an existing
directory makes the resolver return the directory handle (the resolver
is a pure function of the path: it has no effect besides validation). -/
theorem C5_argument_validation (env : Env) (p : String) :
    (env.isDir (normPath p) = false →
      mainScript env (some p) =
        ([], some (ScriptErr.valueError
          ("Dir path " ++ normPath p ++ " does not exist!"))))
    ∧ (env.isDir (normPath p) = true →
      valid_dir env p = Except.ok (normPath p)) := by
  constructor
  · intro h
    have hp : parse_args env (some p) =
        Except.error (ScriptErr.valueError
          ("Dir path " ++ normPath p ++ " does not exist!")) := by
      simp [parse_args, valid_dir, h]
    exact mainScript_eq_error env (some p) _ hp
  · intro h
    simp [valid_dir, h]

/-- C6: once the arguments parse and the rebuild step finishes without
raising — whether it spawned a build or skipped it — the run opens
`compile_commands.json` inside the working directory in truncating
write mode (so any prior content is overwritten, not merged) and spawns
the database generator. -/
theorem C6_compdb_step_always_runs (env : Env) (arg : Option String)
    (w : String) (hp : parse_args env arg = Except.ok w)
    (hb : (build_clang_tools env w).2 = none) :
    Event.openTrunc (joinPath w "compile_commands.json")
      ∈ (mainScript env arg).1
    ∧ Event.spawn (generate_compdb_cmd w) ∈ (mainScript env arg).1 := by
  rw [mainScript_eq_ok env arg w hp]
  simp only [hb]
  cases hg : (generate_compile_commands env w).2 <;>
    simp [generate_compile_commands]

/-- C7: the run is a strict linear pipeline.  If argument parsing
fails, nothing at all is executed.  If it succeeds, the sequence of
spawned subprocesses is one of five lists, each ordered build →
generator → runner with every step at most once: the build spawn is
present only in its branch and is always first, the generator follows
whenever the build step did not raise, and the runner comes last and
only after the generator succeeded.  No step repeats and no step
precedes an earlier one. -/
theorem C7_linear_pipeline (env : Env) (arg : Option String) :
    (∀ e, parse_args env arg = Except.error e →
      mainScript env arg = ([], some e))
    ∧ (∀ w, parse_args env arg = Except.ok w →
      spawnsOf (mainScript env arg).1 = [build_clang_tools_cmd w]
      ∨ spawnsOf (mainScript env arg).1 = [generate_compdb_cmd w]
      ∨ spawnsOf (mainScript env arg).1
          = [build_clang_tools_cmd w, generate_compdb_cmd w]
      ∨ spawnsOf (mainScript env arg).1
          = [generate_compdb_cmd w, clang_tidy_cmd w]
      ∨ spawnsOf (mainScript env arg).1
          = [build_clang_tools_cmd w, generate_compdb_cmd w,
             clang_tidy_cmd w]) := by
  constructor
  · intro e hp
    exact mainScript_eq_error env arg e hp
  · intro w hp
    rw [mainScript_eq_ok env arg w hp]
    by_cases hg : env.exitCode (generate_compdb_cmd w) = 0
    · have hgen : (generate_compile_commands env w).2 = none := by
        simp [generate_compile_commands, runChecked, hg]
      rcases build_clang_tools_shape env w with heq | heq | ⟨m, heq⟩ <;>
        · rw [heq]
          by_cases hx : env.exitCode (build_clang_tools_cmd w) = 0 <;>
            simp [runChecked, hx, hg, spawnsOf, generate_compile_commands,
              run_clang_tidy, List.filterMap_append]
    · have hgen : (generate_compile_commands env w).2 =
          some (ScriptErr.calledProcessError (generate_compdb_cmd w)
            (env.exitCode (generate_compdb_cmd w))) := by
        simp [generate_compile_commands, runChecked, hg]
      rcases build_clang_tools_shape env w with heq | heq | ⟨m, heq⟩ <;>
        · rw [heq]
          by_cases hx : env.exitCode (build_clang_tools_cmd w) = 0 <;>
            simp [runChecked, hx, hg, spawnsOf, generate_compile_commands,
              run_clang_tidy, List.filterMap_append]

/-- C8: the database-generation step is not atomic.  When the generator
exits nonzero, the step still opened `compile_commands.json` in
truncating write mode strictly before the spawn (second event versus
third), so the prior database content is destroyed even though the step
raises `CalledProcessError`. -/
theorem C8_truncation_precedes_failed_generator (env : Env) (w : String)
    (hx : env.exitCode (generate_compdb_cmd w) ≠ 0) :
    generate_compile_commands env w =
      ([Event.printMsg "Generating compile commands file...",
        Event.openTrunc (joinPath w "compile_commands.json"),
        Event.spawn (generate_compdb_cmd w)],
       some (ScriptErr.calledProcessError (generate_compdb_cmd w)
         (env.exitCode (generate_compdb_cmd w)))) := by
  simp [generate_compile_commands, runChecked, hx]

/-- C9: the parser's default is the string `"out/Default"` and the
directory validator is the argument's type converter, so an invocation
with no `--work-dir` argument validates the default too: when
`out/Default` is not an existing directory the run fails while parsing
arguments, with an empty trace — no subprocess is ever spawned. -/
theorem C9_default_workdir_validated (env : Env)
    (h : env.isDir "out/Default" = false) :
    DEFAULT_WORKDIR = "out/Default"
    ∧ parse_args env none = Except.error
        (ScriptErr.valueError "Dir path out/Default does not exist!")
    ∧ mainScript env none = ([], some
        (ScriptErr.valueError "Dir path out/Default does not exist!")) := by
  have hd : DEFAULT_WORKDIR = "out/Default" := rfl
  have hn : normPath DEFAULT_WORKDIR = "out/Default" := rfl
  have hp : parse_args env none = Except.error
      (ScriptErr.valueError "Dir path out/Default does not exist!") := by
    show valid_dir env DEFAULT_WORKDIR = _
    simp only [valid_dir, hn, h]
    rfl
  exact ⟨hd, hp, mainScript_eq_error env none _ hp⟩

/-! ### Concrete environments -/

/-- Every path is a directory and an existing file; everything has
mtime 0 at time 0; every subprocess exits 0. -/
def envFresh : Env :=
  ⟨fun _ => true, fun _ => true, fun _ => 0, 0, fun _ => 0⟩

/-- Like `envFresh` but the clock reads 5184000 s (60 days). -/
def envStale : Env :=
  ⟨fun _ => true, fun _ => true, fun _ => 0, 5184000, fun _ => 0⟩

/-- Directories exist but no file does; every subprocess exits 0. -/
def envMissing : Env :=
  ⟨fun _ => true, fun _ => false, fun _ => 0, 0, fun _ => 0⟩

/-- No directory exists at all. -/
def envNoDir : Env :=
  ⟨fun _ => false, fun _ => false, fun _ => 0, 0, fun _ => 0⟩

/-- Files missing, and the build command for `out/Default` exits 1. -/
def envBuildFail : Env :=
  ⟨fun _ => true, fun _ => false, fun _ => 0, 0,
   fun c => if c = build_clang_tools_cmd "out/Default" then 1 else 0⟩

/-- Files missing, and the compile-database generator for `out/Default`
exits 1. -/
def envGenFail : Env :=
  ⟨fun _ => true, fun _ => false, fun _ => 0, 0,
   fun c => if c = generate_compdb_cmd "out/Default" then 1 else 0⟩

/-- Files missing, and the clang-tidy runner for `out/Default`
exits 1. -/
def envTidyFail : Env :=
  ⟨fun _ => true, fun _ => false, fun _ => 0, 0,
   fun c => if c = clang_tidy_cmd "out/Default" then 1 else 0⟩

/-! ### C10 (corrected) -/

/-- C10, counterexample to the claim as stated: for the input
`"out//Default"` — which names an existing directory in `envFresh` —
the validator does not return the string exactly as given:
`pathlib.Path` collapses the duplicated separator. -/
theorem C10_counterexample :
    valid_dir envFresh "out//Default" ≠ Except.ok "out//Default"
    ∧ valid_dir envFresh "out//Default" = Except.ok "out/Default" := by
  have h : valid_dir envFresh "out//Default" = Except.ok "out/Default" := rfl
  refine ⟨?_, h⟩
  rw [h]
  intro hc
  injection hc with hs
  exact absurd hs (by decide)

/-- C10, amended: for every input string naming an existing directory,
the validator returns the path after `pathlib`'s purely lexical
normalization (dropping `"."` components and redundant separators) —
with no absolutization and no resolution of symlinks — and argument
parsing hands exactly that possibly-relative handle to all subsequent
steps. -/
theorem C10_normalized_handle (env : Env) (p : String)
    (h : env.isDir (normPath p) = true) :
    valid_dir env p = Except.ok (normPath p)
    ∧ parse_args env (some p) = Except.ok (normPath p) := by
  have h1 : valid_dir env p = Except.ok (normPath p) := by
    simp [valid_dir, h]
  exact ⟨h1, h1⟩

/-! ### Witnesses -/

/-- Witness for C1 at three concrete environments: a failing runner is
tolerated, a failing build aborts before the generator, a failing
generator aborts before the runner. -/
theorem C1_witness :
    (parse_args envTidyFail none = Except.ok "out/Default"
      ∧ (build_clang_tools envTidyFail "out/Default").2 = none
      ∧ envTidyFail.exitCode (generate_compdb_cmd "out/Default") = 0
      ∧ envTidyFail.exitCode (clang_tidy_cmd "out/Default") = 1
      ∧ (mainScript envTidyFail none).2 = none
      ∧ Event.spawn (clang_tidy_cmd "out/Default")
          ∈ (mainScript envTidyFail none).1)
    ∧ (envBuildFail.exitCode (build_clang_tools_cmd "out/Default") ≠ 0
      ∧ (mainScript envBuildFail none).2 =
          some (ScriptErr.calledProcessError
            (build_clang_tools_cmd "out/Default")
            (envBuildFail.exitCode (build_clang_tools_cmd "out/Default")))
      ∧ Event.spawn (generate_compdb_cmd "out/Default")
          ∉ (mainScript envBuildFail none).1
      ∧ Event.openTrunc (joinPath "out/Default" "compile_commands.json")
          ∉ (mainScript envBuildFail none).1
      ∧ Event.spawn (clang_tidy_cmd "out/Default")
          ∉ (mainScript envBuildFail none).1)
    ∧ (envGenFail.exitCode (generate_compdb_cmd "out/Default") ≠ 0
      ∧ (mainScript envGenFail none).2 =
          some (ScriptErr.calledProcessError
            (generate_compdb_cmd "out/Default")
            (envGenFail.exitCode (generate_compdb_cmd "out/Default")))
      ∧ Event.spawn (clang_tidy_cmd "out/Default")
          ∉ (mainScript envGenFail none).1) := by
  have hA := (C1_exit_status_asymmetry envTidyFail none "out/Default"
    rfl).1 rfl rfl
  have hB := (C1_exit_status_asymmetry envBuildFail none "out/Default"
    rfl).2.1 (by decide) (by decide)
  have hC := (C1_exit_status_asymmetry envGenFail none "out/Default"
    rfl).2.2 rfl (by decide)
  exact ⟨⟨rfl, rfl, rfl, rfl, hA.1, hA.2⟩,
    ⟨by decide, hB.1, hB.2.1, hB.2.2.1, hB.2.2.2⟩,
    ⟨by decide, hC.1, hC.2⟩⟩

/-- Witness for C2: all three files present and a 0-day-old binary. -/
theorem C2_witness :
    envFresh.fileExists (joinPath "out/Default" TIDY_RUNNER) = true
    ∧ envFresh.fileExists (joinPath "out/Default" TIDY_BINARY) = true
    ∧ envFresh.fileExists (joinPath "out/Default" REPLACEMENTS_BINARY) = true
    ∧ (envFresh.now - envFresh.mtime (joinPath "out/Default" TIDY_BINARY))
        / (24 * 60 * 60) < 30
    ∧ build_clang_tools envFresh "out/Default" = ([], none) := by
  refine ⟨rfl, rfl, rfl, by norm_num [envFresh], ?_⟩
  exact C2_fresh_binaries_skip_build envFresh "out/Default" rfl rfl rfl
    (by norm_num [envFresh])

/-- Witness for C3: all three files present and a 60-day-old binary. -/
theorem C3_witness :
    envStale.fileExists (joinPath "out/Default" TIDY_RUNNER) = true
    ∧ envStale.fileExists (joinPath "out/Default" TIDY_BINARY) = true
    ∧ envStale.fileExists (joinPath "out/Default" REPLACEMENTS_BINARY) = true
    ∧ 30 ≤ (envStale.now - envStale.mtime (joinPath "out/Default" TIDY_BINARY))
        / (24 * 60 * 60)
    ∧ Event.spawn (build_clang_tools_cmd "out/Default")
        ∈ (build_clang_tools envStale "out/Default").1 := by
  refine ⟨rfl, rfl, rfl, by norm_num [envStale], ?_⟩
  exact C3_stale_binary_rebuilds envStale "out/Default" rfl rfl rfl
    (by norm_num [envStale])

/-- Witness for C4: the runner script is missing. -/
theorem C4_witness :
    envMissing.fileExists (joinPath "out/Default" TIDY_RUNNER) = false
    ∧ spawnsOf (build_clang_tools envMissing "out/Default").1
        = [build_clang_tools_cmd "out/Default"]
    ∧ "clang-tidy" ∈ build_clang_tools_cmd "out/Default"
    ∧ "clang-apply-replacements" ∈ build_clang_tools_cmd "out/Default" := by
  have h := C4_missing_file_builds_both_targets envMissing "out/Default"
    (Or.inl rfl)
  exact ⟨rfl, h.1, h.2.1, h.2.2⟩

/-- Witness for C5: a nonexistent directory aborts with an empty trace;
an existing one yields the handle. -/
theorem C5_witness :
    (envNoDir.isDir (normPath "nope") = false
      ∧ mainScript envNoDir (some "nope") =
          ([], some (ScriptErr.valueError
            ("Dir path " ++ normPath "nope" ++ " does not exist!"))))
    ∧ (envFresh.isDir (normPath "out/Default") = true
      ∧ valid_dir envFresh "out/Default"
          = Except.ok (normPath "out/Default")) := by
  exact ⟨⟨rfl, (C5_argument_validation envNoDir "nope").1 rfl⟩,
    ⟨rfl, (C5_argument_validation envFresh "out/Default").2 rfl⟩⟩

/-- Witness for C6: with missing binaries the build runs, succeeds, and
the database step still opens and spawns. -/
theorem C6_witness :
    parse_args envMissing none = Except.ok "out/Default"
    ∧ (build_clang_tools envMissing "out/Default").2 = none
    ∧ Event.openTrunc (joinPath "out/Default" "compile_commands.json")
        ∈ (mainScript envMissing none).1
    ∧ Event.spawn (generate_compdb_cmd "out/Default")
        ∈ (mainScript envMissing none).1 := by
  have h := C6_compdb_step_always_runs envMissing none "out/Default" rfl rfl
  exact ⟨rfl, rfl, h.1, h.2⟩

/-- Witness for C7: the parse-failure case at `envNoDir` and the
full-pipeline case at `envMissing`. -/
theorem C7_witness :
    (parse_args envNoDir none = Except.error
        (ScriptErr.valueError "Dir path out/Default does not exist!")
      ∧ mainScript envNoDir none = ([], some
          (ScriptErr.valueError "Dir path out/Default does not exist!")))
    ∧ (parse_args envMissing none = Except.ok "out/Default"
      ∧ (spawnsOf (mainScript envMissing none).1
            = [build_clang_tools_cmd "out/Default"]
        ∨ spawnsOf (mainScript envMissing none).1
            = [generate_compdb_cmd "out/Default"]
        ∨ spawnsOf (mainScript envMissing none).1
            = [build_clang_tools_cmd "out/Default",
               generate_compdb_cmd "out/Default"]
        ∨ spawnsOf (mainScript envMissing none).1
            = [generate_compdb_cmd "out/Default",
               clang_tidy_cmd "out/Default"]
        ∨ spawnsOf (mainScript envMissing none).1
            = [build_clang_tools_cmd "out/Default",
               generate_compdb_cmd "out/Default",
               clang_tidy_cmd "out/Default"])) := by
  exact ⟨⟨rfl, (C7_linear_pipeline envNoDir none).1 _ rfl⟩,
    ⟨rfl, (C7_linear_pipeline envMissing none).2 "out/Default" rfl⟩⟩

/-- Witness for C8: a generator that exits 1 still truncated the file
first. -/
theorem C8_witness :
    envGenFail.exitCode (generate_compdb_cmd "out/Default") ≠ 0
    ∧ generate_compile_commands envGenFail "out/Default" =
        ([Event.printMsg "Generating compile commands file...",
          Event.openTrunc (joinPath "out/Default" "compile_commands.json"),
          Event.spawn (generate_compdb_cmd "out/Default")],
         some (ScriptErr.calledProcessError
           (generate_compdb_cmd "out/Default")
           (envGenFail.exitCode (generate_compdb_cmd "out/Default")))) := by
  exact ⟨by decide, C8_truncation_precedes_failed_generator envGenFail
    "out/Default" (by decide)⟩

/-- Witness for C9: when no directory exists, the default-argument run
fails during parsing with nothing executed. -/
theorem C9_witness :
    envNoDir.isDir "out/Default" = false
    ∧ DEFAULT_WORKDIR = "out/Default"
    ∧ parse_args envNoDir none = Except.error
        (ScriptErr.valueError "Dir path out/Default does not exist!")
    ∧ mainScript envNoDir none = ([], some
        (ScriptErr.valueError "Dir path out/Default does not exist!")) := by
  have h := C9_default_workdir_validated envNoDir rfl
  exact ⟨rfl, h.1, h.2.1, h.2.2⟩

/-- Witness for the amended C10 at the denormalized input
`"out//Default"`. -/
theorem C10_witness :
    envFresh.isDir (normPath "out//Default") = true
    ∧ valid_dir envFresh "out//Default"
        = Except.ok (normPath "out//Default")
    ∧ parse_args envFresh (some "out//Default")
        = Except.ok (normPath "out//Default") := by
  have h := C10_normalized_handle envFresh "out//Default" rfl
  exact ⟨rfl, h.1, h.2⟩
